import Mathlib

/-!
Verification of the moon-phase computational kernel.

The source is a single Rust file exposing `julian_date : SystemTime -> f64`
and `MoonPhase::new : SystemTime -> MoonPhase`.  We embed the computation
shallowly over the real numbers: the input instant is the signed number of
seconds since the Unix epoch, `f64` arithmetic is modelled exactly on ℝ, and
the Rust float primitives `trunc`, `fract`, `round`, `%` and the saturating
`as usize` cast are modelled by explicit functions below.
-/

noncomputable section

open Real

/-- Rust `f64::trunc` (rounding toward zero), as an integer. -/
def rustTrunc (x : ℝ) : ℤ := if 0 ≤ x then ⌊x⌋ else ⌈x⌉

/-- Rust `f64::fract`: `x - x.trunc()`.  Negative for negative non-integer `x`. -/
def rustFract (x : ℝ) : ℝ := x - rustTrunc x

/-- Rust `f64::round`: round half away from zero. -/
def rustRound (x : ℝ) : ℤ := if 0 ≤ x then ⌊x + 1 / 2⌋ else ⌈x - 1 / 2⌉

/-- Rust `%` on `f64`: remainder with the sign of the dividend,
`x - y * (x / y).trunc()`. -/
def rustRem (x y : ℝ) : ℝ := x - y * rustTrunc (x / y)

/-- Rust `f64 as usize` applied to an integral value: saturates negatives to 0. -/
def rustCastUsize (z : ℤ) : ℕ := z.toNat

/-- Rust `std::f64::consts::TAU`. -/
def TAU : ℝ := 2 * Real.pi

def MOON_SYNODIC_PERIOD : ℝ := 29.530588853
def MOON_SYNODIC_OFFSET : ℝ := 2451550.26
def MOON_DISTANCE_PERIOD : ℝ := 27.55454988
def MOON_DISTANCE_OFFSET : ℝ := 2451562.2
def MOON_LATITUDE_PERIOD : ℝ := 27.212220817
def MOON_LATITUDE_OFFSET : ℝ := 2451565.2
def MOON_LONGITUDE_PERIOD : ℝ := 27.321582241
def MOON_LONGITUDE_OFFSET : ℝ := 2451555.8

/-- Names of lunar phases. -/
def PHASE_NAMES : List String :=
  ["New", "Waxing Crescent", "First Quarter", "Waxing Gibbous",
   "Full", "Waning Gibbous", "Last Quarter", "Waning Crescent"]

/-- Names of Zodiac constellations. -/
def ZODIAC_NAMES : List String :=
  ["Pisces", "Aries", "Taurus", "Gemini", "Cancer", "Leo",
   "Virgo", "Libra", "Scorpio", "Sagittarius", "Capricorn", "Aquarius"]

/-- Ecliptic angles of Zodiac constellations. -/
def ZODIAC_ANGLES : List ℝ :=
  [33.18, 51.16, 93.44, 119.48, 135.30, 173.34, 224.17, 242.57, 271.26,
   302.49, 311.72, 348.58]

/-- `julian_date`: the input is `t` seconds since the Unix epoch (signed).
`duration_since` yields `Ok` with `t` when `0 ≤ t`, and `Err` whose
`duration()` is the positive gap `-t` otherwise, which the source multiplies
by `-1`. -/
def julian_date (t : ℝ) : ℝ :=
  (if 0 ≤ t then t else -1 * -t) / 86400 + 2440587.5

namespace Moon

/-- Local `phase` of `MoonPhase::new`. -/
def phase (t : ℝ) : ℝ :=
  rustFract ((julian_date t - MOON_SYNODIC_OFFSET) / MOON_SYNODIC_PERIOD)

/-- Local `age` of `MoonPhase::new`. -/
def age (t : ℝ) : ℝ := phase t * MOON_SYNODIC_PERIOD

/-- Local `fraction` of `MoonPhase::new`: the source computes
`(1. - (TAU * phase)).cos() / 2.`, i.e. `cos (1 - TAU * phase) / 2`. -/
def fraction (t : ℝ) : ℝ := Real.cos (1 - TAU * phase t) / 2

/-- Local `phase_name` of `MoonPhase::new`:
`PHASE_NAMES[(phase * 8.).round() as usize % 8]`. -/
def phase_name (t : ℝ) : String :=
  PHASE_NAMES.getD (rustCastUsize (rustRound (phase t * 8)) % 8) ""

/-- Local `distance_phase` of `MoonPhase::new`. -/
def distance_phase (t : ℝ) : ℝ :=
  rustFract ((julian_date t - MOON_DISTANCE_OFFSET) / MOON_DISTANCE_PERIOD)

/-- Local `distance_phase_tau` of `MoonPhase::new`. -/
def distance_phase_tau (t : ℝ) : ℝ := TAU * distance_phase t

/-- Local `phase_tau` of `MoonPhase::new`. -/
def phase_tau (t : ℝ) : ℝ := 2 * TAU * phase t

/-- Local `phase_distance_tau_difference` of `MoonPhase::new`. -/
def phase_distance_tau_difference (t : ℝ) : ℝ :=
  phase_tau t - distance_phase_tau t

/-- Local `distance` of `MoonPhase::new`. -/
def distance (t : ℝ) : ℝ :=
  60.4 - 3.3 * Real.cos (distance_phase_tau t)
       - 0.6 * Real.cos (phase_distance_tau_difference t)
       - 0.5 * Real.cos (phase_tau t)

/-- Local `lat_phase` of `MoonPhase::new`. -/
def lat_phase (t : ℝ) : ℝ :=
  rustFract ((julian_date t - MOON_LATITUDE_OFFSET) / MOON_LATITUDE_PERIOD)

/-- Local `latitude` of `MoonPhase::new`. -/
def latitude (t : ℝ) : ℝ := 5.1 * Real.sin (TAU * lat_phase t)

/-- Local `long_phase` of `MoonPhase::new`. -/
def long_phase (t : ℝ) : ℝ :=
  rustFract ((julian_date t - MOON_LONGITUDE_OFFSET) / MOON_LONGITUDE_PERIOD)

/-- The dividend of the `% 360.` in the source's `longitude` computation. -/
def longitude_raw (t : ℝ) : ℝ :=
  360 * long_phase t
    + 6.3 * Real.sin (distance_phase_tau t)
    + 1.3 * Real.sin (phase_distance_tau_difference t)
    + 0.7 * Real.sin (phase_tau t)

/-- Local `longitude` of `MoonPhase::new` (Rust `%` on floats). -/
def longitude (t : ℝ) : ℝ := rustRem (longitude_raw t) 360

/-- The zodiac lookup of `MoonPhase::new`: first name whose angle strictly
exceeds the longitude, else `ZODIAC_NAMES[0]`. -/
def zodiac_name_of (l : ℝ) : String :=
  ((ZODIAC_ANGLES.zip ZODIAC_NAMES).findSome?
      (fun p => if l < p.1 then some p.2 else none)).getD
    (ZODIAC_NAMES.getD 0 "")

/-- Local `zodiac_name` of `MoonPhase::new`. -/
def zodiac_name (t : ℝ) : String := zodiac_name_of (longitude t)

end Moon

/-- The output record of the kernel. -/
structure MoonPhase where
  j_date : ℝ
  phase : ℝ
  age : ℝ
  fraction : ℝ
  distance : ℝ
  latitude : ℝ
  longitude : ℝ
  phase_name : String
  zodiac_name : String

/-- `MoonPhase::new`, assembling the record from the local computations. -/
def MoonPhase.new (t : ℝ) : MoonPhase where
  j_date := julian_date t
  phase := Moon.phase t
  age := Moon.age t
  fraction := Moon.fraction t
  distance := Moon.distance t
  latitude := Moon.latitude t
  longitude := Moon.longitude t
  phase_name := Moon.phase_name t
  zodiac_name := Moon.zodiac_name t

/-- Modelled from the spec: the floor-based modulus that the spec's
`x mod 360, normalized into [0, 360)` describes (the source has no such
normalization; this definition exists to compare against `rustRem`). -/
def floorMod (x y : ℝ) : ℝ := x - y * ⌊x / y⌋

/-! ### Basic facts about the float primitive models -/

theorem rustTrunc_of_nonneg {x : ℝ} (h : 0 ≤ x) : rustTrunc x = ⌊x⌋ := if_pos h

theorem rustTrunc_of_neg {x : ℝ} (h : x < 0) : rustTrunc x = ⌈x⌉ :=
  if_neg (not_le.mpr h)

theorem rustFract_lt_one (x : ℝ) : rustFract x < 1 := by
  unfold rustFract rustTrunc
  by_cases h : 0 ≤ x
  · rw [if_pos h]
    have := Int.lt_floor_add_one x
    push_cast at this ⊢
    linarith
  · rw [if_neg h]
    have := Int.le_ceil x
    push_cast at this ⊢
    linarith

theorem neg_one_lt_rustFract (x : ℝ) : -1 < rustFract x := by
  unfold rustFract rustTrunc
  by_cases h : 0 ≤ x
  · rw [if_pos h]
    have := Int.floor_le x
    push_cast at this ⊢
    linarith
  · rw [if_neg h]
    have := Int.ceil_lt_add_one x
    push_cast at this ⊢
    linarith

theorem rustFract_eq_self {x : ℝ} (h1 : -1 < x) (h2 : x < 1) :
    rustFract x = x := by
  unfold rustFract rustTrunc
  by_cases h : 0 ≤ x
  · rw [if_pos h]
    have hf : ⌊x⌋ = 0 := Int.floor_eq_zero_iff.mpr ⟨h, h2⟩
    rw [hf]
    push_cast
    ring
  · rw [if_neg h]
    have hc : ⌈x⌉ = 0 := Int.ceil_eq_zero_iff.mpr ⟨h1, le_of_lt (not_le.mp h)⟩
    rw [hc]
    push_cast
    ring

theorem rustFract_nonpos {x : ℝ} (h : x < 0) : rustFract x ≤ 0 := by
  unfold rustFract
  rw [rustTrunc_of_neg h]
  have := Int.le_ceil x
  linarith

theorem rustRem_eq_mul_fract {x y : ℝ} (hy : y ≠ 0) :
    rustRem x y = y * rustFract (x / y) := by
  unfold rustRem rustFract
  field_simp

theorem rustRem_360_bounds (x : ℝ) :
    -360 < rustRem x 360 ∧ rustRem x 360 < 360 := by
  have h := rustRem_eq_mul_fract (x := x) (y := 360) (by norm_num)
  have h1 := rustFract_lt_one (x / 360)
  have h2 := neg_one_lt_rustFract (x / 360)
  constructor <;> rw [h] <;> nlinarith

theorem rustRem_eq_self_of_neg {x : ℝ} (h1 : -360 < x) (h2 : x < 0) :
    rustRem x 360 = x := by
  have hneg : x / 360 < 0 := div_neg_of_neg_of_pos h2 (by norm_num)
  have hgt : (-1 : ℝ) < x / 360 := by
    rw [lt_div_iff₀ (by norm_num : (0 : ℝ) < 360)]
    linarith
  unfold rustRem
  rw [rustTrunc_of_neg hneg, Int.ceil_eq_zero_iff.mpr ⟨hgt, le_of_lt hneg⟩]
  push_cast
  ring

theorem rustRem_eq_floorMod_of_nonneg {x : ℝ} (h : 0 ≤ x) :
    rustRem x 360 = floorMod x 360 := by
  unfold rustRem floorMod
  rw [rustTrunc_of_nonneg (div_nonneg h (by norm_num))]

theorem floorMod_nonneg {x y : ℝ} (hy : 0 < y) : 0 ≤ floorMod x y := by
  unfold floorMod
  have h1 := Int.floor_le (x / y)
  have h2 : y * (x / y) = x := by field_simp
  nlinarith

theorem floorMod_lt {x y : ℝ} (hy : 0 < y) : floorMod x y < y := by
  unfold floorMod
  have h1 := Int.lt_floor_add_one (x / y)
  have h2 : y * (x / y) = x := by field_simp
  nlinarith

theorem rustRound_zero : rustRound 0 = 0 := by
  unfold rustRound
  rw [if_pos (le_refl (0 : ℝ))]
  exact Int.floor_eq_zero_iff.mpr (by rw [Set.mem_Ico]; norm_num)

theorem rustRound_neg_two : rustRound (-2) = -2 := by
  unfold rustRound
  rw [if_neg (by norm_num)]
  rw [Int.ceil_eq_iff]
  push_cast
  norm_num

theorem rustRound_7992 : rustRound 7.992 = 8 := by
  unfold rustRound
  rw [if_pos (by norm_num)]
  rw [Int.floor_eq_iff]
  push_cast
  norm_num

/-! ### Evaluations of the synodic and sidereal phases at concrete instants -/

theorem Moon.phase_eq_of {t q : ℝ} (ht : 0 ≤ t) (h1 : -1 < q) (h2 : q < 1)
    (hq : (t / 86400 + 2440587.5 - MOON_SYNODIC_OFFSET) / MOON_SYNODIC_PERIOD
            = q) :
    Moon.phase t = q := by
  unfold Moon.phase julian_date
  rw [if_pos ht, hq]
  exact rustFract_eq_self h1 h2

theorem Moon.long_phase_eq_of {t q : ℝ} (ht : 0 ≤ t) (h1 : -1 < q) (h2 : q < 1)
    (hq : (t / 86400 + 2440587.5 - MOON_LONGITUDE_OFFSET)
            / MOON_LONGITUDE_PERIOD = q) :
    Moon.long_phase t = q := by
  unfold Moon.long_phase julian_date
  rw [if_pos ht, hq]
  exact rustFract_eq_self h1 h2

theorem Moon.phase_epoch : Moon.phase 947182464 = 0 :=
  Moon.phase_eq_of (by norm_num) (by norm_num) (by norm_num)
    (by unfold MOON_SYNODIC_OFFSET MOON_SYNODIC_PERIOD; norm_num)

theorem Moon.phase_quarter_neg : Moon.phase 946544603.2807752 = -0.25 :=
  Moon.phase_eq_of (by norm_num) (by norm_num) (by norm_num)
    (by unfold MOON_SYNODIC_OFFSET MOON_SYNODIC_PERIOD; norm_num)

theorem Moon.phase_frac_neg : Moon.phase 946314973.421854272 = -0.34 :=
  Moon.phase_eq_of (by norm_num) (by norm_num) (by norm_num)
    (by unfold MOON_SYNODIC_OFFSET MOON_SYNODIC_PERIOD; norm_num)

theorem Moon.phase_wrap : Moon.phase 949731355.4340223008 = 0.999 :=
  Moon.phase_eq_of (by norm_num) (by norm_num) (by norm_num)
    (by unfold MOON_SYNODIC_OFFSET MOON_SYNODIC_PERIOD; norm_num)

theorem Moon.long_phase_neg_half : Moon.long_phase 946480827.6471888 = -0.5 :=
  Moon.long_phase_eq_of (by norm_num) (by norm_num) (by norm_num)
    (by unfold MOON_LONGITUDE_OFFSET MOON_LONGITUDE_PERIOD; norm_num)

theorem Moon.long_phase_pos_half : Moon.long_phase 948841412.3528112 = 0.5 :=
  Moon.long_phase_eq_of (by norm_num) (by norm_num) (by norm_num)
    (by unfold MOON_LONGITUDE_OFFSET MOON_LONGITUDE_PERIOD; norm_num)

theorem Moon.phase_unix_neg : Moon.phase 0 < 0 := by
  unfold Moon.phase julian_date MOON_SYNODIC_OFFSET MOON_SYNODIC_PERIOD
  rw [if_pos (le_refl (0 : ℝ))]
  have hq : ((0 : ℝ) / 86400 + 2440587.5 - 2451550.26) / 29.530588853
      = -10962760000000 / 29530588853 := by norm_num
  rw [hq]
  unfold rustFract
  rw [rustTrunc_of_neg (by norm_num)]
  have hc : ⌈(-10962760000000 : ℝ) / 29530588853⌉ = -371 := by
    rw [Int.ceil_eq_iff]
    push_cast
    constructor
    · rw [lt_div_iff₀ (by norm_num : (0 : ℝ) < 29530588853)]
      norm_num
    · rw [div_le_iff₀ (by norm_num : (0 : ℝ) < 29530588853)]
      norm_num
  rw [hc]
  push_cast
  have hlt : (-10962760000000 : ℝ) / 29530588853 < -371 := by
    rw [div_lt_iff₀ (by norm_num : (0 : ℝ) < 29530588853)]
    norm_num
  linarith

theorem Moon.fraction_frac_neg : Moon.fraction 946314973.421854272 < 0 := by
  unfold Moon.fraction
  rw [Moon.phase_frac_neg]
  have harg : (1 : ℝ) - TAU * (-0.34) = 1 + 0.68 * Real.pi := by
    unfold TAU
    ring
  rw [harg]
  have hcos : Real.cos (1 + 0.68 * Real.pi) < 0 := by
    apply Real.cos_neg_of_pi_div_two_lt_of_lt
    · linarith [Real.pi_pos]
    · linarith [Real.pi_gt_three]
  linarith

theorem Moon.longitude_neg_half_neg : Moon.longitude 946480827.6471888 < 0 := by
  have h1 := Real.neg_one_le_sin (Moon.distance_phase_tau 946480827.6471888)
  have h2 := Real.sin_le_one (Moon.distance_phase_tau 946480827.6471888)
  have h3 :=
    Real.neg_one_le_sin (Moon.phase_distance_tau_difference 946480827.6471888)
  have h4 :=
    Real.sin_le_one (Moon.phase_distance_tau_difference 946480827.6471888)
  have h5 := Real.neg_one_le_sin (Moon.phase_tau 946480827.6471888)
  have h6 := Real.sin_le_one (Moon.phase_tau 946480827.6471888)
  have hraw1 : Moon.longitude_raw 946480827.6471888 < 0 := by
    unfold Moon.longitude_raw
    rw [Moon.long_phase_neg_half]
    linarith
  have hraw2 : -360 < Moon.longitude_raw 946480827.6471888 := by
    unfold Moon.longitude_raw
    rw [Moon.long_phase_neg_half]
    linarith
  unfold Moon.longitude
  rw [rustRem_eq_self_of_neg hraw2 hraw1]
  exact hraw1

theorem Moon.longitude_raw_pos_half : 0 ≤ Moon.longitude_raw 948841412.3528112 := by
  have h1 := Real.neg_one_le_sin (Moon.distance_phase_tau 948841412.3528112)
  have h3 :=
    Real.neg_one_le_sin (Moon.phase_distance_tau_difference 948841412.3528112)
  have h5 := Real.neg_one_le_sin (Moon.phase_tau 948841412.3528112)
  unfold Moon.longitude_raw
  rw [Moon.long_phase_pos_half]
  linarith

/-! ### The claims -/

/-- C5: for every instant, the Julian date is
`seconds_since_epoch / 86400 + 2440587.5` with the signed seconds offset, and
the conversion is total (both branches of `duration_since` collapse to the
same formula). -/
theorem c5_julian_date_total (t : ℝ) : julian_date t = t / 86400 + 2440587.5 := by
  unfold julian_date
  split_ifs with h
  · rfl
  · ring

/-- C6: for every instant, the snapshot's distance is
`60.4 - 3.3 cos a - 0.6 cos (b - a) - 0.5 cos b` with `a = 2π > distance_phase`
read as `TAU * distance_phase`, `b = 2·TAU·phase`, and `distance_phase` the
truncating fractional part of `(julian_date - 2451562.2) / 27.55454988`. -/
theorem c6_distance_formula (t : ℝ) :
    (MoonPhase.new t).distance =
      60.4
        - 3.3 * Real.cos (TAU * rustFract
            (((MoonPhase.new t).j_date - 2451562.2) / 27.55454988))
        - 0.6 * Real.cos (2 * TAU * (MoonPhase.new t).phase
            - TAU * rustFract
              (((MoonPhase.new t).j_date - 2451562.2) / 27.55454988))
        - 0.5 * Real.cos (2 * TAU * (MoonPhase.new t).phase) := rfl

/-- C1: the claimed fraction identity fails on the code (code bug): at the
instant whose Julian date is exactly the synodic epoch the phase is 0, yet
the snapshot's illuminated fraction is `cos 1 / 2 ≈ 0.27`, not
`(1 - cos (2π·0)) / 2 = 0`; the source computes `(1. - (TAU * phase)).cos()`,
i.e. `cos (1 - TAU·phase)`, instead of `1 - cos (TAU·phase)`. -/
theorem c1_fraction_formula_code_bug :
    (MoonPhase.new 947182464).phase = 0 ∧
    (MoonPhase.new 947182464).fraction = Real.cos 1 / 2 ∧
    (MoonPhase.new 947182464).fraction
      ≠ (1 - Real.cos (2 * Real.pi * (MoonPhase.new 947182464).phase)) / 2 := by
  have hp : Moon.phase 947182464 = 0 := Moon.phase_epoch
  refine ⟨hp, ?_, ?_⟩
  · show Real.cos (1 - TAU * Moon.phase 947182464) / 2 = Real.cos 1 / 2
    rw [hp]
    norm_num
  · show Real.cos (1 - TAU * Moon.phase 947182464) / 2
      ≠ (1 - Real.cos (2 * Real.pi * Moon.phase 947182464)) / 2
    rw [hp]
    simp only [mul_zero, sub_zero, Real.cos_zero]
    norm_num
    exact ne_of_gt (by linarith [Real.cos_one_pos])

/-- C8: at the instant whose Julian date equals the synodic reference epoch
2451550.26 exactly, the snapshot has phase 0, age 0 and phase name "New". -/
theorem c8_epoch_exactness :
    (MoonPhase.new 947182464).j_date = 2451550.26 ∧
    (MoonPhase.new 947182464).phase = 0 ∧
    (MoonPhase.new 947182464).age = 0 ∧
    (MoonPhase.new 947182464).phase_name = "New" := by
  have hp : Moon.phase 947182464 = 0 := Moon.phase_epoch
  refine ⟨?_, hp, ?_, ?_⟩
  · show julian_date 947182464 = 2451550.26
    unfold julian_date
    rw [if_pos (by norm_num : (0 : ℝ) ≤ 947182464)]
    norm_num
  · show Moon.phase 947182464 * MOON_SYNODIC_PERIOD = 0
    rw [hp]
    ring
  · show PHASE_NAMES.getD
        (rustCastUsize (rustRound (Moon.phase 947182464 * 8)) % 8) "" = "New"
    rw [hp]
    have h0 : (0 : ℝ) * 8 = 0 := by norm_num
    rw [h0, rustRound_zero]
    rfl

/-- C10: the computation is a pure function of the instant: two calls on
identical inputs agree on all nine fields of the snapshot. -/
theorem c10_deterministic (t1 t2 : ℝ) (h : t1 = t2) :
    (MoonPhase.new t1).j_date = (MoonPhase.new t2).j_date ∧
    (MoonPhase.new t1).phase = (MoonPhase.new t2).phase ∧
    (MoonPhase.new t1).age = (MoonPhase.new t2).age ∧
    (MoonPhase.new t1).fraction = (MoonPhase.new t2).fraction ∧
    (MoonPhase.new t1).distance = (MoonPhase.new t2).distance ∧
    (MoonPhase.new t1).latitude = (MoonPhase.new t2).latitude ∧
    (MoonPhase.new t1).longitude = (MoonPhase.new t2).longitude ∧
    (MoonPhase.new t1).phase_name = (MoonPhase.new t2).phase_name ∧
    (MoonPhase.new t1).zodiac_name = (MoonPhase.new t2).zodiac_name := by
  subst h
  exact ⟨rfl, rfl, rfl, rfl, rfl, rfl, rfl, rfl, rfl⟩

/-- Witness for C10 at the Unix epoch. -/
theorem c10_deterministic_witness :
    (MoonPhase.new 0).j_date = (MoonPhase.new 0).j_date ∧
    (MoonPhase.new 0).phase = (MoonPhase.new 0).phase ∧
    (MoonPhase.new 0).age = (MoonPhase.new 0).age ∧
    (MoonPhase.new 0).fraction = (MoonPhase.new 0).fraction ∧
    (MoonPhase.new 0).distance = (MoonPhase.new 0).distance ∧
    (MoonPhase.new 0).latitude = (MoonPhase.new 0).latitude ∧
    (MoonPhase.new 0).longitude = (MoonPhase.new 0).longitude ∧
    (MoonPhase.new 0).phase_name = (MoonPhase.new 0).phase_name ∧
    (MoonPhase.new 0).zodiac_name = (MoonPhase.new 0).zodiac_name :=
  c10_deterministic 0 0 rfl

/-- C2 counterexample: the claimed invariants fail on concrete instants.
At the Unix epoch (before the synodic epoch) the phase is negative; at the
instant with phase exactly -0.34 the illuminated fraction is negative; at the
instant with sidereal phase exactly -0.5 the ecliptic longitude is negative. -/
theorem c2_invariants_cex :
    (MoonPhase.new 0).phase < 0 ∧
    (MoonPhase.new 946314973.421854272).fraction < 0 ∧
    (MoonPhase.new 946480827.6471888).longitude < 0 :=
  ⟨Moon.phase_unix_neg, Moon.fraction_frac_neg, Moon.longitude_neg_half_neg⟩

/-- C2 (amended): the ranges that actually hold for every instant, pre-epoch
instants included: phase lies in (-1, 1), the illuminated fraction lies in
[-1/2, 1/2], and the ecliptic longitude lies in (-360, 360). -/
theorem c2_invariants_amended (t : ℝ) :
    (-1 < (MoonPhase.new t).phase ∧ (MoonPhase.new t).phase < 1) ∧
    (-(1 / 2) ≤ (MoonPhase.new t).fraction ∧
      (MoonPhase.new t).fraction ≤ 1 / 2) ∧
    (-360 < (MoonPhase.new t).longitude ∧ (MoonPhase.new t).longitude < 360) := by
  refine ⟨⟨?_, ?_⟩, ⟨?_, ?_⟩, ?_⟩
  · exact neg_one_lt_rustFract
      ((julian_date t - MOON_SYNODIC_OFFSET) / MOON_SYNODIC_PERIOD)
  · exact rustFract_lt_one
      ((julian_date t - MOON_SYNODIC_OFFSET) / MOON_SYNODIC_PERIOD)
  · show -(1 / 2) ≤ Real.cos (1 - TAU * Moon.phase t) / 2
    linarith [Real.neg_one_le_cos (1 - TAU * Moon.phase t)]
  · show Real.cos (1 - TAU * Moon.phase t) / 2 ≤ 1 / 2
    linarith [Real.cos_le_one (1 - TAU * Moon.phase t)]
  · exact rustRem_360_bounds (Moon.longitude_raw t)

/-- C9: for every instant the phase-name index `(round(phase*8) as usize) % 8`
is below the table length, so the lookup never goes out of range; and for
every instant with negative phase the saturating cast collapses the index to
0, so the phase name is "New". -/
theorem c9_phase_index_safe :
    (∀ t : ℝ, rustCastUsize (rustRound ((MoonPhase.new t).phase * 8)) % 8
        < PHASE_NAMES.length) ∧
    (∀ t : ℝ, (MoonPhase.new t).phase < 0 →
      rustCastUsize (rustRound ((MoonPhase.new t).phase * 8)) = 0 ∧
      (MoonPhase.new t).phase_name = "New") := by
  constructor
  · intro t
    have hlen : PHASE_NAMES.length = 8 := rfl
    rw [hlen]
    exact Nat.mod_lt _ (by norm_num)
  · intro t h
    have hh : Moon.phase t < 0 := h
    have h8 : Moon.phase t * 8 < 0 := by nlinarith
    have hr : rustRound (Moon.phase t * 8) ≤ 0 := by
      unfold rustRound
      rw [if_neg (not_le.mpr h8)]
      exact Int.ceil_le.mpr (by push_cast; linarith)
    have h0 : rustCastUsize (rustRound (Moon.phase t * 8)) = 0 := by
      unfold rustCastUsize
      omega
    refine ⟨h0, ?_⟩
    show PHASE_NAMES.getD
        (rustCastUsize (rustRound (Moon.phase t * 8)) % 8) "" = "New"
    rw [h0]
    rfl

/-- Witness for C9 at the Unix epoch, where the phase is negative. -/
theorem c9_phase_index_safe_witness :
    (MoonPhase.new 0).phase < 0 ∧
    rustCastUsize (rustRound ((MoonPhase.new 0).phase * 8)) = 0 ∧
    (MoonPhase.new 0).phase_name = "New" :=
  ⟨Moon.phase_unix_neg, c9_phase_index_safe.2 0 Moon.phase_unix_neg⟩

/-- C3 counterexample: at the instant with phase exactly -0.25 the snapshot's
phase name is "New" (the saturating cast hits first), while the claimed rule
`names[round(phase*8) mod 8]` selects index `(-2) mod 8 = 6`, "Last Quarter". -/
theorem c3_phase_name_cex :
    (MoonPhase.new 946544603.2807752).phase_name = "New" ∧
    PHASE_NAMES.getD
        (rustRound ((MoonPhase.new 946544603.2807752).phase * 8) % 8).toNat ""
      = "Last Quarter" := by
  have hp : Moon.phase 946544603.2807752 = -0.25 := Moon.phase_quarter_neg
  have hm : (-0.25 : ℝ) * 8 = -2 := by norm_num
  have hr : rustRound ((-0.25 : ℝ) * 8) = -2 := by
    rw [hm]
    exact rustRound_neg_two
  constructor
  · show PHASE_NAMES.getD
        (rustCastUsize (rustRound (Moon.phase 946544603.2807752 * 8)) % 8) ""
      = "New"
    rw [hp, hr]
    rfl
  · show PHASE_NAMES.getD
        (rustRound (Moon.phase 946544603.2807752 * 8) % 8).toNat ""
      = "Last Quarter"
    rw [hp, hr]
    rfl

/-- C3 (amended): the table rule `names[round(phase*8) mod 8]` holds for every
instant whose phase is non-negative (the saturating cast is then the identity
and `mod` commutes with it), and in particular the instant with phase exactly
0.999 resolves to "New". -/
theorem c3_phase_name_amended :
    (∀ t : ℝ, 0 ≤ (MoonPhase.new t).phase →
      (MoonPhase.new t).phase_name
        = PHASE_NAMES.getD
            (rustRound ((MoonPhase.new t).phase * 8) % 8).toNat "") ∧
    (MoonPhase.new 949731355.4340223008).phase_name = "New" := by
  constructor
  · intro t h
    have hh : (0 : ℝ) ≤ Moon.phase t := h
    have h8 : (0 : ℝ) ≤ Moon.phase t * 8 := by nlinarith
    have hr : 0 ≤ rustRound (Moon.phase t * 8) := by
      unfold rustRound
      rw [if_pos h8]
      exact Int.floor_nonneg.mpr (by linarith)
    show PHASE_NAMES.getD
        (rustCastUsize (rustRound (Moon.phase t * 8)) % 8) ""
      = PHASE_NAMES.getD (rustRound (Moon.phase t * 8) % 8).toNat ""
    unfold rustCastUsize
    congr 1
    omega
  · show PHASE_NAMES.getD
        (rustCastUsize (rustRound (Moon.phase 949731355.4340223008 * 8)) % 8)
        "" = "New"
    rw [Moon.phase_wrap]
    have hm : (0.999 : ℝ) * 8 = 7.992 := by norm_num
    rw [hm, rustRound_7992]
    rfl

/-- Witness for C3 (amended) at the instant with phase exactly 0.999. -/
theorem c3_phase_name_amended_witness :
    0 ≤ (MoonPhase.new 949731355.4340223008).phase ∧
    (MoonPhase.new 949731355.4340223008).phase_name
      = PHASE_NAMES.getD
          (rustRound ((MoonPhase.new 949731355.4340223008).phase * 8) % 8).toNat
          "" := by
  have h : (0 : ℝ) ≤ Moon.phase 949731355.4340223008 := by
    rw [Moon.phase_wrap]
    norm_num
  exact ⟨h, c3_phase_name_amended.1 949731355.4340223008 h⟩

/-- One step of the zodiac linear scan. -/
theorem zodiac_scan_cons (l a : ℝ) (n : String) (rest : List (ℝ × String)) :
    List.findSome? (fun p => if l < p.1 then some p.2 else none) ((a, n) :: rest)
      = if l < a then some n
        else List.findSome? (fun p => if l < p.1 then some p.2 else none) rest := by
  by_cases h : l < a
  · rw [if_pos h]
    simp [List.findSome?, h]
  · rw [if_neg h]
    simp [List.findSome?, h]

/-- C4: the zodiac resolver returns the name of the first table entry whose
boundary angle strictly exceeds the longitude, with "Pisces" as the fallback
when no boundary exceeds it; the snapshot's zodiac name is this resolver
applied to the snapshot's longitude; and longitude 0 gives "Pisces",
349 gives "Pisces" via the fallback, 33.5 gives "Aries". -/
theorem c4_zodiac_resolution :
    (∀ t : ℝ, (MoonPhase.new t).zodiac_name
        = Moon.zodiac_name_of ((MoonPhase.new t).longitude)) ∧
    (∀ l : ℝ, Moon.zodiac_name_of l =
      if l < 33.18 then "Pisces"
      else if l < 51.16 then "Aries"
      else if l < 93.44 then "Taurus"
      else if l < 119.48 then "Gemini"
      else if l < 135.30 then "Cancer"
      else if l < 173.34 then "Leo"
      else if l < 224.17 then "Virgo"
      else if l < 242.57 then "Libra"
      else if l < 271.26 then "Scorpio"
      else if l < 302.49 then "Sagittarius"
      else if l < 311.72 then "Capricorn"
      else if l < 348.58 then "Aquarius"
      else "Pisces") ∧
    Moon.zodiac_name_of 0 = "Pisces" ∧
    Moon.zodiac_name_of 349 = "Pisces" ∧
    Moon.zodiac_name_of 33.5 = "Aries" := by
  have hmain : ∀ l : ℝ, Moon.zodiac_name_of l =
      if l < 33.18 then "Pisces"
      else if l < 51.16 then "Aries"
      else if l < 93.44 then "Taurus"
      else if l < 119.48 then "Gemini"
      else if l < 135.30 then "Cancer"
      else if l < 173.34 then "Leo"
      else if l < 224.17 then "Virgo"
      else if l < 242.57 then "Libra"
      else if l < 271.26 then "Scorpio"
      else if l < 302.49 then "Sagittarius"
      else if l < 311.72 then "Capricorn"
      else if l < 348.58 then "Aquarius"
      else "Pisces" := by
    intro l
    unfold Moon.zodiac_name_of ZODIAC_ANGLES ZODIAC_NAMES
    simp only [List.zip_cons_cons, List.zip_nil_right]
    rw [zodiac_scan_cons, zodiac_scan_cons, zodiac_scan_cons, zodiac_scan_cons,
        zodiac_scan_cons, zodiac_scan_cons, zodiac_scan_cons, zodiac_scan_cons,
        zodiac_scan_cons, zodiac_scan_cons, zodiac_scan_cons, zodiac_scan_cons]
    by_cases h1 : l < 33.18
    · rw [if_pos h1, if_pos h1]
      rfl
    · rw [if_neg h1, if_neg h1]
      by_cases h2 : l < 51.16
      · rw [if_pos h2, if_pos h2]
        rfl
      · rw [if_neg h2, if_neg h2]
        by_cases h3 : l < 93.44
        · rw [if_pos h3, if_pos h3]
          rfl
        · rw [if_neg h3, if_neg h3]
          by_cases h4 : l < 119.48
          · rw [if_pos h4, if_pos h4]
            rfl
          · rw [if_neg h4, if_neg h4]
            by_cases h5 : l < 135.30
            · rw [if_pos h5, if_pos h5]
              rfl
            · rw [if_neg h5, if_neg h5]
              by_cases h6 : l < 173.34
              · rw [if_pos h6, if_pos h6]
                rfl
              · rw [if_neg h6, if_neg h6]
                by_cases h7 : l < 224.17
                · rw [if_pos h7, if_pos h7]
                  rfl
                · rw [if_neg h7, if_neg h7]
                  by_cases h8 : l < 242.57
                  · rw [if_pos h8, if_pos h8]
                    rfl
                  · rw [if_neg h8, if_neg h8]
                    by_cases h9 : l < 271.26
                    · rw [if_pos h9, if_pos h9]
                      rfl
                    · rw [if_neg h9, if_neg h9]
                      by_cases h10 : l < 302.49
                      · rw [if_pos h10, if_pos h10]
                        rfl
                      · rw [if_neg h10, if_neg h10]
                        by_cases h11 : l < 311.72
                        · rw [if_pos h11, if_pos h11]
                          rfl
                        · rw [if_neg h11, if_neg h11]
                          by_cases h12 : l < 348.58
                          · rw [if_pos h12, if_pos h12]
                            rfl
                          · rw [if_neg h12, if_neg h12]
                            rfl
  refine ⟨fun t => rfl, hmain, ?_, ?_, ?_⟩
  · rw [hmain]
    norm_num
  · rw [hmain]
    norm_num
  · rw [hmain]
    norm_num

/-- C7 counterexample: at the instant whose sidereal phase is exactly -0.5 the
snapshot's ecliptic longitude is negative, while the claimed value — the
dividend taken `mod 360` and normalized into [0, 360) — is non-negative, so
the snapshot's longitude is not that normalized value. -/
theorem c7_longitude_cex :
    (MoonPhase.new 946480827.6471888).longitude < 0 ∧
    0 ≤ floorMod (Moon.longitude_raw 946480827.6471888) 360 ∧
    floorMod (Moon.longitude_raw 946480827.6471888) 360 < 360 :=
  ⟨Moon.longitude_neg_half_neg, floorMod_nonneg (by norm_num),
    floorMod_lt (by norm_num)⟩

/-- C7 (amended): the snapshot's ecliptic longitude is the truncating Rust
remainder of `360·long_phase + 6.3 sin a + 1.3 sin d + 0.7 sin b` by 360,
and whenever that dividend is non-negative it coincides with the floor-based
`mod 360` normalized into [0, 360). -/
theorem c7_longitude_amended (t : ℝ) :
    (MoonPhase.new t).longitude = rustRem (Moon.longitude_raw t) 360 ∧
    (0 ≤ Moon.longitude_raw t →
      (MoonPhase.new t).longitude = floorMod (Moon.longitude_raw t) 360 ∧
      0 ≤ (MoonPhase.new t).longitude ∧ (MoonPhase.new t).longitude < 360) := by
  constructor
  · rfl
  · intro h
    have he : (MoonPhase.new t).longitude = floorMod (Moon.longitude_raw t) 360 := by
      show rustRem (Moon.longitude_raw t) 360 = floorMod (Moon.longitude_raw t) 360
      exact rustRem_eq_floorMod_of_nonneg h
    refine ⟨he, ?_, ?_⟩
    · rw [he]
      exact floorMod_nonneg (by norm_num)
    · rw [he]
      exact floorMod_lt (by norm_num)

/-- Witness for C7 (amended) at the instant whose sidereal phase is exactly
0.5, where the dividend is at least 180 - 8.3 > 0. -/
theorem c7_longitude_amended_witness :
    0 ≤ Moon.longitude_raw 948841412.3528112 ∧
    ((MoonPhase.new 948841412.3528112).longitude
        = floorMod (Moon.longitude_raw 948841412.3528112) 360 ∧
      0 ≤ (MoonPhase.new 948841412.3528112).longitude ∧
      (MoonPhase.new 948841412.3528112).longitude < 360) :=
  ⟨Moon.longitude_raw_pos_half,
    (c7_longitude_amended 948841412.3528112).2 Moon.longitude_raw_pos_half⟩
